import Mathlib

/-!
Verification of the experience/leveling engine and the warning-escalation
policy of the telegram-moderation-bot repository.

The Python sources are embedded shallowly:
- `config.py` : the level formula `calculate_required_exp`, the iterative
  inversion `calculate_level_from_exp` (a `while` loop, rendered with an
  explicit fuel argument that dominates the number of iterations), and the
  configuration constants.
- `utils/experience.py` : the `ExperienceHandler` middleware (cooldown-gated
  XP award), `award_experience`, `get_user_profile`'s progress decomposition,
  `modify_user_experience`, `set_user_level`, `set_xp_multiplier`.
- `database/database.py` : `Database.update_user_experience`, which writes
  experience, level and `last_xp_time = now` in one statement.
- `handlers/moderation.py` : the warn/autoban step of `warn_command`.

Machine integers are modelled as `ℕ`/`ℤ` (Python integers are unbounded),
Python floats that only ever hold small decimal constants or user multipliers
are modelled as `ℚ`, Python strings as `List Char`, and SQL rows as Lean
structures holding exactly the columns the core touches.
-/

namespace ModBot

/-! ## Configuration constants (src/config.py) -/

def MAX_WARNINGS : ℕ := 3

def DEFAULT_BAN_TIME : ℕ := 86400

def XP_COOLDOWN : ℕ := 20

def XP_PER_MESSAGE_MIN : ℕ := 5

def XP_PER_MESSAGE_MAX : ℕ := 20

/-- `MIN_XP_MULTIPLIER = 0.1` in `config.py`; the float literal denotes the
rational 1/10 for the comparisons the code performs. -/
def MIN_XP_MULTIPLIER : ℚ := 1/10

/-- `MAX_XP_MULTIPLIER = 10.0` in `config.py`. -/
def MAX_XP_MULTIPLIER : ℚ := 10

/-! ## Level formula (src/config.py, `calculate_required_exp`) -/

/-- `calculate_required_exp(level) = 3 * level**2 + 50 * level + 100`. -/
def calculate_required_exp (level : ℕ) : ℕ := 3 * level ^ 2 + 50 * level + 100

/-- The body of the `while calculate_required_exp(level) <= exp: level += 1`
loop of `calculate_level_from_exp`, with an explicit fuel argument.  The loop
runs while the condition holds and returns the final value of `level`. -/
def levelScan (exp : ℕ) : ℕ → ℕ → ℕ
  | 0, level => level
  | fuel + 1, level =>
    if calculate_required_exp level ≤ exp then levelScan exp fuel (level + 1) else level

/-- `calculate_level_from_exp(exp)`: starts at `level = 1`, increments while
`calculate_required_exp(level) <= exp`, returns `level - 1`.  Fuel `exp`
dominates the iteration count, since `calculate_required_exp level > exp`
already holds once `level` reaches `1 + exp`. -/
def calculate_level_from_exp (exp : ℕ) : ℕ := levelScan exp exp 1 - 1

/-! ## Basic facts about the level scan -/

theorem calculate_required_exp_le_of_le {a b : ℕ} (h : a ≤ b) :
    calculate_required_exp a ≤ calculate_required_exp b := by
  have h2 : a ^ 2 ≤ b ^ 2 := Nat.pow_le_pow_left h 2
  simp only [calculate_required_exp]
  nlinarith

theorem calculate_required_exp_lt_of_lt {a b : ℕ} (h : a < b) :
    calculate_required_exp a < calculate_required_exp b := by
  have h2 : a ^ 2 ≤ b ^ 2 := Nat.pow_le_pow_left (Nat.le_of_lt h) 2
  simp only [calculate_required_exp]
  nlinarith

theorem levelScan_ge (exp : ℕ) : ∀ fuel level : ℕ, level ≤ levelScan exp fuel level := by
  intro fuel
  induction fuel with
  | zero => intro level; simp [levelScan]
  | succ n ih =>
    intro level
    simp only [levelScan]
    split
    · exact le_trans (Nat.le_succ level) (ih (level + 1))
    · exact le_refl level

theorem levelScan_exit (exp : ℕ) : ∀ fuel level : ℕ,
    exp < calculate_required_exp (level + fuel) →
    exp < calculate_required_exp (levelScan exp fuel level) := by
  intro fuel
  induction fuel with
  | zero => intro level h; simpa [levelScan] using h
  | succ n ih =>
    intro level h
    simp only [levelScan]
    split
    · apply ih (level + 1)
      have heq : level + 1 + n = level + (n + 1) := by omega
      rw [heq]; exact h
    · omega

theorem levelScan_passed (exp : ℕ) : ∀ fuel level k : ℕ,
    level ≤ k → k < levelScan exp fuel level → calculate_required_exp k ≤ exp := by
  intro fuel
  induction fuel with
  | zero => intro level k h1 h2; simp [levelScan] at h2; omega
  | succ n ih =>
    intro level k h1 h2
    simp only [levelScan] at h2
    by_cases hc : calculate_required_exp level ≤ exp
    · rw [if_pos hc] at h2
      rcases Nat.eq_or_lt_of_le h1 with rfl | hlt
      · exact hc
      · exact ih (level + 1) k hlt h2
    · rw [if_neg hc] at h2; omega

theorem fuel_sufficient (e : ℕ) : e < calculate_required_exp (1 + e) := by
  have h2 : e ≤ (1 + e) ^ 2 := by nlinarith
  simp only [calculate_required_exp]
  nlinarith

/-- Upper half of the loop's exit condition: the returned level is the last
one whose successor still exceeds the experience. -/
theorem lt_required_succ_level (e : ℕ) :
    e < calculate_required_exp (calculate_level_from_exp e + 1) := by
  have h1 : 1 ≤ levelScan e e 1 := levelScan_ge e e 1
  have h2 : e < calculate_required_exp (levelScan e e 1) :=
    levelScan_exit e e 1 (fuel_sufficient e)
  have h3 : calculate_level_from_exp e + 1 = levelScan e e 1 := by
    simp only [calculate_level_from_exp]; omega
  rwa [h3]

/-- Lower half, available only when the computed level is at least 1: every
level the loop passed satisfied the condition. -/
theorem required_le_of_level_pos (e : ℕ) (h : 1 ≤ calculate_level_from_exp e) :
    calculate_required_exp (calculate_level_from_exp e) ≤ e := by
  have h1 : 1 ≤ levelScan e e 1 := levelScan_ge e e 1
  have h3 : calculate_level_from_exp e + 1 = levelScan e e 1 := by
    simp only [calculate_level_from_exp]; omega
  exact levelScan_passed e e 1 (calculate_level_from_exp e) h (by omega)

/-- The computed level is the unique `L` with `e < required (L+1)` and
(`L = 0` or `required L ≤ e`). -/
theorem calculate_level_from_exp_unique (e L : ℕ)
    (h1 : e < calculate_required_exp (L + 1))
    (h2 : L = 0 ∨ calculate_required_exp L ≤ e) :
    calculate_level_from_exp e = L := by
  rcases lt_trichotomy (calculate_level_from_exp e) L with h | h | h
  · rcases h2 with rfl | hL
    · omega
    · have := calculate_required_exp_le_of_le (show calculate_level_from_exp e + 1 ≤ L by omega)
      have := lt_required_succ_level e
      omega
  · exact h
  · have hp : 1 ≤ calculate_level_from_exp e := by omega
    have := required_le_of_level_pos e hp
    have := calculate_required_exp_le_of_le (show L + 1 ≤ calculate_level_from_exp e by omega)
    omega

theorem calculate_level_from_exp_required (L : ℕ) :
    calculate_level_from_exp (calculate_required_exp L) = L :=
  calculate_level_from_exp_unique _ L
    (calculate_required_exp_lt_of_lt (Nat.lt_succ_self L)) (Or.inr le_rfl)

theorem calculate_level_from_exp_eq_zero (e : ℕ) (h : e < 153) :
    calculate_level_from_exp e = 0 := by
  apply calculate_level_from_exp_unique e 0 _ (Or.inl rfl)
  show e < calculate_required_exp 1
  simp only [calculate_required_exp]
  omega

theorem required_le_of_hundred (e : ℕ) (h : 100 ≤ e) :
    calculate_required_exp (calculate_level_from_exp e) ≤ e := by
  rcases Nat.eq_zero_or_pos (calculate_level_from_exp e) with h0 | hp
  · rw [h0]; simp only [calculate_required_exp]; omega
  · exact required_le_of_level_pos e hp

/-! ## C1 — sandwich property of the level computation -/

/-- C1, counterexample: at `e = 0` the claimed sandwich fails, because
`calculate_level_from_exp 0 = 0` while `calculate_required_exp 0 = 100 > 0`;
the lower bound of the sandwich does not hold below 100 experience. -/
theorem sandwich_fails_at_zero :
    ¬ (calculate_required_exp (calculate_level_from_exp 0) ≤ 0 ∧
       0 < calculate_required_exp (calculate_level_from_exp 0 + 1)) := by
  decide

/-- C1, amended: for every non-negative `e` the upper bound
`e < calculate_required_exp (calculate_level_from_exp e + 1)` holds; the lower
bound `calculate_required_exp (calculate_level_from_exp e) ≤ e` holds exactly
from `e ≥ 100 = calculate_required_exp 0` on, while every `e < 100` is mapped
to level 0 with `calculate_required_exp 0 = 100 > e`. -/
theorem sandwich_amended (e : ℕ) :
    e < calculate_required_exp (calculate_level_from_exp e + 1) ∧
    (100 ≤ e → calculate_required_exp (calculate_level_from_exp e) ≤ e) ∧
    (e < 100 → calculate_level_from_exp e = 0 ∧
      e < calculate_required_exp (calculate_level_from_exp e)) := by
  refine ⟨lt_required_succ_level e, fun h => required_le_of_hundred e h, fun h => ?_⟩
  have h0 : calculate_level_from_exp e = 0 := calculate_level_from_exp_eq_zero e (by omega)
  refine ⟨h0, ?_⟩
  rw [h0]
  simp only [calculate_required_exp]
  omega

/-- C1, witness for `sandwich_amended` at `e = 250`. -/
theorem sandwich_amended_inst :
    250 < calculate_required_exp (calculate_level_from_exp 250 + 1) ∧
    calculate_required_exp (calculate_level_from_exp 250) ≤ 250 :=
  ⟨(sandwich_amended 250).1, (sandwich_amended 250).2.1 (by decide)⟩

/-! ## C8 — monotonicity of the level computation -/

/-- C8: `calculate_level_from_exp` is monotone non-decreasing. -/
theorem level_from_exp_monotone (e1 e2 : ℕ) (h : e1 ≤ e2) :
    calculate_level_from_exp e1 ≤ calculate_level_from_exp e2 := by
  by_contra hlt
  push_neg at hlt
  have h1 : 1 ≤ calculate_level_from_exp e1 := by omega
  have h2 := required_le_of_level_pos e1 h1
  have h3 := lt_required_succ_level e2
  have h4 := calculate_required_exp_le_of_le
    (show calculate_level_from_exp e2 + 1 ≤ calculate_level_from_exp e1 by omega)
  omega

/-- C8, witness for `level_from_exp_monotone` at `e1 = 160`, `e2 = 300`. -/
theorem level_from_exp_monotone_inst :
    calculate_level_from_exp 160 ≤ calculate_level_from_exp 300 :=
  level_from_exp_monotone 160 300 (by decide)

/-! ## C7 — closed-form inversion (spec §4.1)

The repository only contains the iterative scan; the closed form is the
alternative the spec allows.  `closed_form_candidate` is modelled from the
spec: `floor((-50 + sqrt(2500 - 12*(100 - experience))) / 6)`, over exact
integer arithmetic (`Int.sqrt` is the floor of the real square root, and
floors commute with the subsequent floor division by 6).  The spec's floor
re-check follows: the candidate is decremented if `calculate_required_exp`
at the candidate exceeds the experience.  Finally, per the spec's edge case
"no negative levels, ... experience below the minimum threshold for the
baseline level maps to the baseline level", the result is clamped to the
baseline level 0. -/

/-- The quadratic `3*l^2 + 50*l + 100` over `ℤ`, for evaluating the re-check
at a possibly negative candidate. -/
def reqZ (l : ℤ) : ℤ := 3 * l ^ 2 + 50 * l + 100

theorem reqZ_natCast (l : ℕ) : reqZ (l : ℤ) = (calculate_required_exp l : ℤ) := by
  simp only [reqZ, calculate_required_exp]
  push_cast
  ring

/-- Modelled from the spec: the closed-form candidate
`floor((-50 + sqrt(2500 - 12*(100 - experience))) / 6)`. -/
def closed_form_candidate (e : ℕ) : ℤ :=
  (-50 + Int.sqrt (2500 - 12 * (100 - (e : ℤ)))).fdiv 6

/-- Modelled from the spec: closed-form level inversion with the floor
re-check against the required-experience formula and the baseline clamp. -/
def closed_form_level (e : ℕ) : ℕ :=
  (max 0 (if (e : ℤ) < reqZ (closed_form_candidate e)
          then closed_form_candidate e - 1
          else closed_form_candidate e)).toNat

theorem closed_form_level_eq (e : ℕ) : closed_form_level e = calculate_level_from_exp e := by
  have hd : (2500 - 12 * (100 - (e : ℤ))) = ((1300 + 12 * e : ℕ) : ℤ) := by push_cast; ring
  have hsq : Int.sqrt (2500 - 12 * (100 - (e : ℤ))) = (Nat.sqrt (1300 + 12 * e) : ℤ) := by
    rw [hd, Int.sqrt_natCast]
  set s := Nat.sqrt (1300 + 12 * e) with hs_def
  set c := closed_form_candidate e with hc_def
  have hcand : c = (-50 + (s : ℤ)) / 6 := by
    rw [hc_def, closed_form_candidate, hsq, Int.fdiv_eq_ediv _ (by omega)]
  have hs1 : s * s ≤ 1300 + 12 * e := Nat.sqrt_le _
  have hs2 : 1300 + 12 * e < (s + 1) * (s + 1) := Nat.lt_succ_sqrt _
  by_cases he : 100 ≤ e
  · have hs50 : 50 ≤ s := Nat.le_sqrt.mpr (by omega)
    have hs50' : (50 : ℤ) ≤ (s : ℤ) := by exact_mod_cast hs50
    have hcb1 : 6 * c ≤ -50 + (s : ℤ) := by rw [hcand]; omega
    have hcb2 : -50 + (s : ℤ) < 6 * c + 6 := by rw [hcand]; omega
    have hc0 : 0 ≤ c := by rw [hcand]; omega
    have k1 : (6 * c + 50) * (6 * c + 50) ≤ (s : ℤ) * (s : ℤ) :=
      mul_self_le_mul_self (by omega) (by omega)
    have k2 : (s : ℤ) * (s : ℤ) ≤ 1300 + 12 * (e : ℤ) := by exact_mod_cast hs1
    have hreq : reqZ c ≤ (e : ℤ) := by simp only [reqZ]; nlinarith [k1, k2]
    have k4 : (1300 + 12 * (e : ℤ)) < ((s : ℤ) + 1) * ((s : ℤ) + 1) := by exact_mod_cast hs2
    have k5 : ((s : ℤ) + 1) * ((s : ℤ) + 1) ≤ (6 * c + 56) * (6 * c + 56) :=
      mul_self_le_mul_self (by omega) (by omega)
    have hlt : (e : ℤ) < reqZ (c + 1) := by simp only [reqZ]; nlinarith [k4, k5]
    have hcast : (c.toNat : ℤ) = c := Int.toNat_of_nonneg hc0
    have h1 : e < calculate_required_exp (c.toNat + 1) := by
      have : reqZ ((c.toNat : ℤ) + 1) = (calculate_required_exp (c.toNat + 1) : ℤ) := by
        have := reqZ_natCast (c.toNat + 1)
        push_cast at this ⊢
        linarith [this]
      rw [hcast] at this
      have := hlt.trans_le (le_of_eq this)
      exact_mod_cast this
    have h2 : calculate_required_exp c.toNat ≤ e := by
      have := reqZ_natCast c.toNat
      rw [hcast] at this
      rw [this] at hreq
      exact_mod_cast hreq
    have hL : calculate_level_from_exp e = c.toNat :=
      calculate_level_from_exp_unique e c.toNat h1 (Or.inr h2)
    rw [hL]
    simp only [closed_form_level]
    rw [← hc_def, if_neg (not_lt.mpr hreq)]
    omega
  · have hs49 : s < 50 := by
      rw [hs_def]
      exact Nat.sqrt_lt.mpr (by omega)
    have hs49' : (s : ℤ) < 50 := by exact_mod_cast hs49
    have hcneg : c ≤ -1 := by rw [hcand]; omega
    have h0 : calculate_level_from_exp e = 0 := calculate_level_from_exp_eq_zero e (by omega)
    rw [h0]
    simp only [closed_form_level]
    rw [← hc_def]
    split
    · omega
    · omega

/-- C7: the iterative scan `calculate_level_from_exp` and the spec's
closed-form inversion `closed_form_level` agree for every non-negative
experience up to 10,000,000 (they in fact agree everywhere:
`closed_form_level_eq`). -/
theorem closed_form_agrees (e : ℕ) (he : e ≤ 10000000) :
    closed_form_level e = calculate_level_from_exp e :=
  closed_form_level_eq e

/-- C7, witness for `closed_form_agrees` at `e = 1000`. -/
theorem closed_form_agrees_inst :
    (1000 : ℕ) ≤ 10000000 ∧ closed_form_level 1000 = calculate_level_from_exp 1000 :=
  ⟨by decide, closed_form_agrees 1000 (by decide)⟩

/-! ## User state (the `users` row fields touched by the experience core) -/

/-- The subset of a `users` row that the experience core reads and writes:
`experience`, `level`, `last_xp_time` (Unix timestamps as `ℕ`), and
`xp_multiplier` (a Python float holding a configured decimal, as `ℚ`). -/
structure UserRec where
  experience : ℕ
  level : ℕ
  last_xp_time : ℕ
  xp_multiplier : ℚ

/-- `Database.update_user_experience` (database/database.py): one SQL UPDATE
setting `experience = ?`, `level = ?`, and `last_xp_time = strftime(now)`. -/
def update_user_experience (now : ℕ) (experience level : ℕ) (u : UserRec) : UserRec :=
  { u with experience := experience, level := level, last_xp_time := now }

/-- Python `int()` applied to a product of nonneg int and float: truncation
toward zero. -/
def int_trunc (q : ℚ) : ℤ := if 0 ≤ q then ⌊q⌋ else ⌈q⌉

/-- `ExperienceHandler.award_experience` (utils/experience.py).  `base_xp`
models the `random.randint(XP_PER_MESSAGE_MIN, XP_PER_MESSAGE_MAX)` draw;
`xp_to_award = int(base_xp * multiplier)`, `new_exp = current_exp + xp`,
`new_level = calculate_level_from_exp(new_exp)`, then
`Database.update_user_experience` persists all three fields.
(The stored experience is a `ℕ`, matching the spec's data model; the final
`toNat` is inert for the non-negative multipliers the store admits.) -/
def award_experience (now base_xp : ℕ) (u : UserRec) : UserRec :=
  let xp_to_award : ℤ := int_trunc ((base_xp : ℚ) * u.xp_multiplier)
  let new_exp : ℕ := ((u.experience : ℤ) + xp_to_award).toNat
  update_user_experience now new_exp (calculate_level_from_exp new_exp) u

/-- `modify_user_experience` (utils/experience.py): clamps the changed
experience at 0 (`max(0, current_exp + experience_change)`), recomputes the
level, persists; returns `True` on an existing user. -/
def modify_user_experience (now : ℕ) (experience_change : ℤ) (u : UserRec) :
    Bool × UserRec :=
  let new_exp : ℕ := (max 0 ((u.experience : ℤ) + experience_change)).toNat
  (true, update_user_experience now new_exp (calculate_level_from_exp new_exp) u)

/-- `set_user_level` (utils/experience.py): rejects `target_level < 1`,
otherwise stores `calculate_required_exp(target_level - 1)` (0 for
`target_level = 1`) as experience together with `target_level` as level. -/
def set_user_level (now target_level : ℕ) (u : UserRec) : Bool × UserRec :=
  if target_level < 1 then (false, u)
  else
    (true, update_user_experience now
      (if 1 < target_level then calculate_required_exp (target_level - 1) else 0)
      target_level u)

/-- `set_xp_multiplier` (utils/experience.py): rejects a multiplier outside
`[MIN_XP_MULTIPLIER, MAX_XP_MULTIPLIER]` before touching the database,
otherwise stores it. -/
def set_xp_multiplier (multiplier : ℚ) (u : UserRec) : Bool × UserRec :=
  if MIN_XP_MULTIPLIER ≤ multiplier ∧ multiplier ≤ MAX_XP_MULTIPLIER then
    (true, { u with xp_multiplier := multiplier })
  else (false, u)

/-- `get_user_profile` (utils/experience.py), the `exp_in_level` field:
`experience - (calculate_required_exp(level - 1) if level > 1 else 0)`,
over unbounded Python integers, hence `ℤ`-valued. -/
def profile_exp_in_level (u : UserRec) : ℤ :=
  (u.experience : ℤ) -
    (if 1 < u.level then (calculate_required_exp (u.level - 1) : ℤ) else 0)

/-- `get_user_profile` (utils/experience.py), the `exp_needed` field:
`calculate_required_exp(level) - experience`. -/
def profile_exp_needed (u : UserRec) : ℤ :=
  (calculate_required_exp u.level : ℤ) - (u.experience : ℤ)

/-! ## The experience middleware (utils/experience.py, `__call__`) -/

/-- The relevant fields of an aiogram `User`. -/
structure Sender where
  id : ℕ
  is_bot : Bool

/-- The relevant fields of an aiogram `Message`: `text` (`None`, empty, or a
string, modelled as `Option (List Char)`) and `from_user`. -/
structure Msg where
  text : Option (List Char)
  from_user : Option Sender

/-- `ExperienceHandler.__call__`'s effect on the sender's stored row.
Mirrors the guards in order: falsy or command text (`not event.text or
event.text.startswith('/')`), absent or bot sender, absent user row, then the
cooldown test `current_time - last_xp_time >= XP_COOLDOWN` (Python integer
subtraction, hence `ℤ`), awarding experience only when it passes. -/
def experience_middleware (now base_xp : ℕ) (event : Msg) (store : Option UserRec) :
    Option UserRec :=
  match event.text with
  | none => store
  | some t =>
    if t = [] ∨ t.head? = some '/' then store
    else
      match event.from_user with
      | none => store
      | some user =>
        if user.is_bot then store
        else
          match store with
          | none => none
          | some u =>
            if (XP_COOLDOWN : ℤ) ≤ (now : ℤ) - (u.last_xp_time : ℤ) then
              some (award_experience now base_xp u)
            else some u

/-! ## The warn/autoban step (handlers/moderation.py, `warn_command`) -/

/-- The moderation fields of the SQLAlchemy `User` row that `warn_command`
mutates. -/
structure WarnUser where
  warns : ℕ
  is_banned : Bool
  ban_until : Option ℕ

/-- The database effect of one `/warn` on the target row, parameterised by
the configured `warn_limit` and `ban_duration` (``WARN_LIMIT``,
``BAN_DURATION_DEFAULT``): increments `warns`, and whenever
`new_warns >= WARN_LIMIT` sets `is_banned` and
`ban_until = utcnow() + BAN_DURATION_DEFAULT`.  The returned `Bool` records
whether the autoban branch ran (a "ban" `ModerationAction` was logged). -/
def warn_step (warn_limit ban_duration now : ℕ) (u : WarnUser) : WarnUser × Bool :=
  let new_warns := u.warns + 1
  if warn_limit ≤ new_warns then
    (⟨new_warns, true, some (now + ban_duration)⟩, true)
  else
    (⟨new_warns, u.is_banned, u.ban_until⟩, false)

/-! ## C3 — level invariant after core mutations -/

/-- C3, counterexample: `set_user_level` breaks the invariant.  Setting level
2 stores experience `calculate_required_exp 1 = 153` and level 2, but
`calculate_level_from_exp 153 = 1`. -/
theorem set_user_level_invariant_cex :
    (set_user_level 0 2 ⟨0, 0, 0, 1⟩).1 = true ∧
    ((set_user_level 0 2 ⟨0, 0, 0, 1⟩).2).level ≠
      calculate_level_from_exp ((set_user_level 0 2 ⟨0, 0, 0, 1⟩).2).experience := by
  decide

/-- C3, amended: the invariant `level = calculate_level_from_exp experience`
holds after `award_experience` and after `modify_user_experience`, but after
a successful `set_user_level target` the stored level exceeds
`calculate_level_from_exp` of the stored experience by exactly one. -/
theorem level_invariant_amended (now base_xp : ℕ) (change : ℤ) (target : ℕ)
    (u : UserRec) (ht : 1 ≤ target) :
    (award_experience now base_xp u).level =
      calculate_level_from_exp (award_experience now base_xp u).experience ∧
    ((modify_user_experience now change u).2).level =
      calculate_level_from_exp ((modify_user_experience now change u).2).experience ∧
    ((set_user_level now target u).2).level =
      calculate_level_from_exp ((set_user_level now target u).2).experience + 1 := by
  refine ⟨rfl, rfl, ?_⟩
  simp only [set_user_level, update_user_experience]
  rw [if_neg (by omega : ¬ target < 1)]
  by_cases h1 : 1 < target
  · rw [if_pos h1]
    show target = calculate_level_from_exp (calculate_required_exp (target - 1)) + 1
    rw [calculate_level_from_exp_required (target - 1)]
    omega
  · have heq : target = 1 := by omega
    subst heq
    rw [if_neg h1]
    show 1 = calculate_level_from_exp 0 + 1
    rw [calculate_level_from_exp_eq_zero 0 (by omega)]

/-- C3, witness for `level_invariant_amended` at `target = 1`. -/
theorem level_invariant_amended_inst :
    ((set_user_level 5 1 ⟨0, 0, 0, 1⟩).2).level =
      calculate_level_from_exp ((set_user_level 5 1 ⟨0, 0, 0, 1⟩).2).experience + 1 :=
  (level_invariant_amended 5 7 (-3) 1 ⟨0, 0, 0, 1⟩ (by decide)).2.2

/-! ## C4 — cooldown gating of the XP award -/

/-- C4: for an ordinary human text message with a stored row, an event inside
the cooldown window (`now - last_xp_time < XP_COOLDOWN`) leaves the row
untouched, while an event at or past the window performs the award and sets
`last_xp_time = now`. -/
theorem cooldown_gate (now base_xp : ℕ) (event : Msg) (u : UserRec) (t : List Char)
    (htext : event.text = some t) (hne : t ≠ []) (hcmd : t.head? ≠ some '/')
    (sender : Sender) (hfrom : event.from_user = some sender)
    (hbot : sender.is_bot = false) :
    ((now : ℤ) - (u.last_xp_time : ℤ) < (XP_COOLDOWN : ℤ) →
      experience_middleware now base_xp event (some u) = some u) ∧
    ((XP_COOLDOWN : ℤ) ≤ (now : ℤ) - (u.last_xp_time : ℤ) →
      experience_middleware now base_xp event (some u) =
        some (award_experience now base_xp u) ∧
      (award_experience now base_xp u).last_xp_time = now) := by
  constructor
  · intro hlt
    unfold experience_middleware
    rw [htext, hfrom]
    simp [hne, hcmd, hbot, not_le.mpr hlt]
  · intro hge
    unfold experience_middleware
    rw [htext, hfrom]
    simp [hne, hcmd, hbot, hge]
    rfl

/-- C4, witness for `cooldown_gate`: `last_xp_time = 0`, event at
`now = 0 + XP_COOLDOWN = 20` awards and stamps the time. -/
theorem cooldown_gate_inst :
    experience_middleware 20 5 ⟨some ['h', 'i'], some ⟨7, false⟩⟩ (some ⟨0, 0, 0, 1⟩) =
      some (award_experience 20 5 ⟨0, 0, 0, 1⟩) ∧
    (award_experience 20 5 ⟨0, 0, 0, 1⟩).last_xp_time = 20 :=
  (cooldown_gate 20 5 ⟨some ['h', 'i'], some ⟨7, false⟩⟩ ⟨0, 0, 0, 1⟩ ['h', 'i']
    rfl (by decide) (by decide) ⟨7, false⟩ rfl rfl).2 (by decide)

/-! ## C9 — the middleware filters -/

/-- C9: no award for anything but an ordinary human text message: falsy text,
command text, absent or bot sender, or an absent user row all leave the store
unchanged, whatever the cooldown state. -/
theorem middleware_filters_skip (now base_xp : ℕ) (event : Msg) (store : Option UserRec)
    (h : event.text = none ∨
         (∃ t, event.text = some t ∧ (t = [] ∨ t.head? = some '/')) ∨
         event.from_user = none ∨
         (∃ sender, event.from_user = some sender ∧ sender.is_bot = true) ∨
         store = none) :
    experience_middleware now base_xp event store = store := by
  unfold experience_middleware
  rcases htext : event.text with _ | t
  · rfl
  by_cases hcond : t = [] ∨ t.head? = some '/'
  · simp [hcond]
  rcases hfrom : event.from_user with _ | sender
  · simp [hcond]
  by_cases hbot : sender.is_bot
  · simp [hcond, hbot]
  rcases hstore : store with _ | u
  · simp [hcond, hbot]
  exfalso
  rcases h with h | ⟨t', ht', hc'⟩ | h | ⟨s', hs', hb'⟩ | h
  · rw [htext] at h; exact Option.noConfusion h
  · rw [htext] at ht'
    obtain rfl : t = t' := Option.some.inj ht'
    exact hcond hc'
  · rw [hfrom] at h; exact Option.noConfusion h
  · rw [hfrom] at hs'
    obtain rfl : sender = s' := Option.some.inj hs'
    rw [hb'] at hbot
    exact hbot rfl
  · rw [hstore] at h; exact Option.noConfusion h

/-- C9, witness for `middleware_filters_skip`: an event with no text and an
absent store. -/
theorem middleware_filters_skip_inst :
    experience_middleware 0 5 ⟨none, none⟩ none = none :=
  middleware_filters_skip 0 5 ⟨none, none⟩ none (Or.inl rfl)

/-! ## C10 — every experience write stamps the cooldown -/

/-- C10: `Database.update_user_experience` always overwrites `last_xp_time`
with the current time, so the administrative `modify_user_experience` and
(successful) `set_user_level` also reset the cooldown timestamp. -/
theorem update_experience_resets_cooldown (now experience level target : ℕ)
    (change : ℤ) (u : UserRec) (ht : 1 ≤ target) :
    (update_user_experience now experience level u).last_xp_time = now ∧
    ((modify_user_experience now change u).2).last_xp_time = now ∧
    ((set_user_level now target u).2).last_xp_time = now := by
  refine ⟨rfl, rfl, ?_⟩
  simp only [set_user_level]
  rw [if_neg (by omega : ¬ target < 1)]
  rfl

/-- C10, witness for `update_experience_resets_cooldown`. -/
theorem update_experience_resets_cooldown_inst :
    ((modify_user_experience 3 5 ⟨0, 0, 0, 1⟩).2).last_xp_time = 3 ∧
    ((set_user_level 3 1 ⟨0, 0, 0, 1⟩).2).last_xp_time = 3 :=
  ⟨(update_experience_resets_cooldown 3 0 0 1 5 ⟨0, 0, 0, 1⟩ (by decide)).2.1,
   (update_experience_resets_cooldown 3 0 0 1 5 ⟨0, 0, 0, 1⟩ (by decide)).2.2⟩

/-! ## C6 — multiplier bounds -/

/-- C6: `set_xp_multiplier` rejects any multiplier outside
`[MIN_XP_MULTIPLIER, MAX_XP_MULTIPLIER]` leaving the row unchanged, and
accepts any multiplier inside the range, storing it. -/
theorem multiplier_bounds (multiplier : ℚ) (u : UserRec) :
    ((multiplier < MIN_XP_MULTIPLIER ∨ MAX_XP_MULTIPLIER < multiplier) →
      set_xp_multiplier multiplier u = (false, u)) ∧
    (MIN_XP_MULTIPLIER ≤ multiplier → multiplier ≤ MAX_XP_MULTIPLIER →
      (set_xp_multiplier multiplier u).1 = true ∧
      (set_xp_multiplier multiplier u).2 = { u with xp_multiplier := multiplier }) := by
  constructor
  · intro h
    simp only [set_xp_multiplier]
    rw [if_neg]
    rintro ⟨h1, h2⟩
    rcases h with h | h <;> linarith
  · intro h1 h2
    simp only [set_xp_multiplier]
    rw [if_pos ⟨h1, h2⟩]
    exact ⟨rfl, rfl⟩

/-- C6, witness for `multiplier_bounds`: the spec's test value 0.05 = 1/20 is
rejected and the row is unchanged. -/
theorem multiplier_bounds_inst :
    set_xp_multiplier (1/20) ⟨0, 0, 0, 1⟩ = (false, ⟨0, 0, 0, 1⟩) :=
  (multiplier_bounds (1/20) ⟨0, 0, 0, 1⟩).1
    (Or.inl (by norm_num [MIN_XP_MULTIPLIER]))

/-! ## C5 — profile progress decomposition -/

/-- C5, counterexample: a row with experience 101 satisfies the level
invariant with level `calculate_level_from_exp 101 = 0`, yet
`get_user_profile` computes `exp_needed = calculate_required_exp 0 - 101 =
-1 < 0`. -/
theorem profile_exp_needed_cex :
    (⟨101, 0, 0, 1⟩ : UserRec).level =
      calculate_level_from_exp (⟨101, 0, 0, 1⟩ : UserRec).experience ∧
    profile_exp_needed ⟨101, 0, 0, 1⟩ < 0 := by
  decide

/-- C5, amended: under the level invariant `exp_in_level` is non-negative,
but `exp_needed` is non-positive for every experience ≥ 100 (the code
subtracts the threshold of the *current* level, which the invariant already
puts at or below the experience); only below 100 experience (level 0) is
`exp_needed` positive. -/
theorem profile_decomposition_amended (u : UserRec)
    (hinv : u.level = calculate_level_from_exp u.experience) :
    0 ≤ profile_exp_in_level u ∧
    (100 ≤ u.experience → profile_exp_needed u ≤ 0) ∧
    (u.experience < 100 → 0 < profile_exp_needed u) := by
  refine ⟨?_, ?_, ?_⟩
  · simp only [profile_exp_in_level]
    by_cases h1 : 1 < u.level
    · rw [if_pos h1]
      have hp : 1 ≤ calculate_level_from_exp u.experience := by omega
      have h2 := required_le_of_level_pos u.experience hp
      have h3 : calculate_required_exp (u.level - 1) ≤
          calculate_required_exp (calculate_level_from_exp u.experience) :=
        calculate_required_exp_le_of_le (by omega)
      omega
    · rw [if_neg h1]; omega
  · intro h
    have h2 := required_le_of_hundred u.experience h
    simp only [profile_exp_needed]
    rw [hinv]
    omega
  · intro h
    have h0 : calculate_level_from_exp u.experience = 0 :=
      calculate_level_from_exp_eq_zero _ (by omega)
    have h100 : calculate_required_exp 0 = 100 := rfl
    simp only [profile_exp_needed]
    rw [hinv, h0, h100]
    omega

/-- C5, witness for `profile_decomposition_amended` at experience 50,
level `calculate_level_from_exp 50 = 0`. -/
theorem profile_decomposition_amended_inst :
    0 ≤ profile_exp_in_level ⟨50, 0, 0, 1⟩ ∧ 0 < profile_exp_needed ⟨50, 0, 0, 1⟩ :=
  ⟨(profile_decomposition_amended ⟨50, 0, 0, 1⟩ (by decide)).1,
   (profile_decomposition_amended ⟨50, 0, 0, 1⟩ (by decide)).2.2 (by decide)⟩

/-! ## C2 — warning escalation is level-triggered, not edge-triggered -/

/-- C2: with `WARN_LIMIT = 3` and `BAN_DURATION_DEFAULT = 86400`, the
warning-add taking a user from 2 to 3 warns runs the autoban branch
(`ban_until = 100 + 86400`), and — contrary to the claim — the subsequent
warning-add taking the user from 3 to 4 warns runs the autoban branch
*again*, re-setting `ban_until` to `500 + 86400`: the check
`new_warns >= WARN_LIMIT` is level-triggered. -/
theorem warn_autoban_level_triggered :
    (warn_step 3 86400 100 ⟨2, false, none⟩).2 = true ∧
    ((warn_step 3 86400 100 ⟨2, false, none⟩).1).is_banned = true ∧
    ((warn_step 3 86400 100 ⟨2, false, none⟩).1).ban_until = some 86500 ∧
    (warn_step 3 86400 500 ((warn_step 3 86400 100 ⟨2, false, none⟩).1)).2 = true ∧
    ((warn_step 3 86400 500 ((warn_step 3 86400 100 ⟨2, false, none⟩).1)).1).ban_until =
      some 86900 := by
  decide

end ModBot
